import Mathlib

/-!
Verification of the `polymcp_toolkit` shim (src/addon/polymcp_toolkit.py).

The module exposes a list of Python functions as MCP tools over a small HTTP
surface.  We embed its data model and operations shallowly:

* Python runtime values that occur as parameter defaults, arguments and tool
  results are modelled by `PyVal`, with `jsonSerializable` standing for the
  `json.dumps` check applied by `_extract_param_info`, and `strRender`
  standing for Python's `str(...)` rendering.
* A Python function registered as a tool is an `Operation`: its `__name__`,
  its (cleaned) docstring as returned by `inspect.getdoc`, its signature
  (the ordered parameter list with optional annotation label and optional
  default), and its body `run`, which receives the keyword arguments bound
  by the call `func(**params)` and either returns a value or raises an
  exception (`ExecResult.exn` carries `type(e).__name__` and `str(e)`).
* Calling `func(**params)` first binds the arguments: for a plain signature
  (positional-or-keyword parameters, no *args/**kwargs — the only kind the
  shim's registered tools use), binding succeeds iff every supplied keyword
  names a declared parameter and every parameter without a default is
  supplied; otherwise the interpreter raises `TypeError` before the body
  runs.  `callPython` models this.
* `expose_tools` builds the registry (`tool_map` dict and `tool_info` list)
  in one loop over the supplied functions; `dictInsert` models Python dict
  assignment `tool_map[name] = func` (replace in place if the key exists,
  else append) and `lookupD` models dict lookup.
* The three endpoint handlers `health`, `list_tools` and `invoke_tool` are
  embedded as pure functions of the application state; `handle` packages
  them as a request/response step to state that no request mutates the
  registry (the closures in the source never assign to it).
-/

/-- Python runtime values as far as the shim observes them: scalar JSON
values plus opaque host-application objects (which `json.dumps` rejects). -/
inductive PyVal where
  | none
  | bool (b : Bool)
  | int (n : Int)
  | str (s : String)
  | obj (tag : String)
  deriving DecidableEq

/-- Models the `json.dumps(param.default)` serializability check in
`_extract_param_info`: scalar values serialize, opaque host objects raise
`TypeError`. -/
def jsonSerializable : PyVal → Bool
  | PyVal.obj _ => false
  | _ => true

/-- Models Python's `str(...)` rendering used as the fallback for
non-serializable defaults. -/
def strRender : PyVal → String
  | PyVal.none => "None"
  | PyVal.bool true => "True"
  | PyVal.bool false => "False"
  | PyVal.int n => toString n
  | PyVal.str s => s
  | PyVal.obj tag => "<" ++ tag ++ " object>"

/-- A JSON object body / keyword-argument mapping, as an association list
with the keys in insertion order (Python dicts preserve it). -/
abbrev Args := List (String × PyVal)

/-- Dict lookup `args[n]` on an argument mapping. -/
def lookupArg : Args → String → Option PyVal
  | [], _ => Option.none
  | (k, v) :: rest, n => if k = n then Option.some v else lookupArg rest n

/-- One declared parameter of a registered function's signature:
`inspect.signature(func).parameters[name]`.  `annot` is the resolved
annotation label (`getattr(annotation, "__name__", str(annotation))`),
absent when the parameter carries no annotation; `default` is absent when
`param.default is inspect.Parameter.empty`. -/
structure Param where
  name : String
  annot : Option String
  default : Option PyVal
  deriving DecidableEq

/-- The per-parameter descriptor entry built by `_extract_param_info`:
the `required` flag, the optional `type` key, and the optional `default`
key. -/
structure ParamInfo where
  required : Bool
  typeLabel : Option String
  default : Option PyVal
  deriving DecidableEq

/-- Loop body of `_extract_param_info` for one parameter: `required` is
true iff the parameter has no default; the `default` key is added only
when a default exists, storing it verbatim when `json.dumps` accepts it
and `str(default)` otherwise. -/
def paramInfoOf (p : Param) : ParamInfo :=
  { required := p.default.isNone,
    typeLabel := p.annot,
    default := p.default.map
      (fun v => if jsonSerializable v then v else PyVal.str (strRender v)) }

/-- Embedding of `_extract_param_info`: the ordered mapping from parameter
name to its descriptor entry, in declaration order. -/
def _extract_param_info (ps : List Param) : List (String × ParamInfo) :=
  ps.map (fun p => (p.name, paramInfoOf p))

/-- Embedding of `doc.split("\x5cn\x5cn")[0]` on the character list: the
prefix of the text up to (excluding) the first occurrence of two adjacent
newline characters, or the whole text when there is none. -/
def firstPara : List Char → List Char
  | [] => []
  | [c] => [c]
  | c :: d :: t => if c = '\n' ∧ d = '\n' then [] else c :: firstPara (d :: t)

/-- The whitespace class stripped by Python's `str.strip()`. -/
def isPyWhitespace (c : Char) : Bool :=
  c = ' ' || c = '\t' || c = '\n' || c = '\r' || c = '\x0b' || c = '\x0c'

/-- Embedding of `str.strip()`: drop whitespace from both ends. -/
def listTrim (l : List Char) : List Char :=
  ((l.dropWhile isPyWhitespace).reverse.dropWhile isPyWhitespace).reverse

/-- Embedding of `_extract_docstring`.  The argument is the result of
`inspect.getdoc(func)` (`Option.none` when the function has no docstring);
`if not doc` also treats an empty docstring as absent.  Otherwise the
result is the first paragraph — `doc.split("\x5cn\x5cn")[0]` — stripped of
surrounding whitespace. -/
def _extract_docstring (doc : Option String) : String :=
  match doc with
  | Option.none => ""
  | Option.some d =>
    if d = "" then "" else String.mk (listTrim (firstPara d.data))

/-- Outcome of running a registered function's body on bound arguments:
a returned value, or a raised exception carrying `type(e).__name__` and
`str(e)`. -/
inductive ExecResult where
  | ok (v : PyVal)
  | exn (kind : String) (msg : String)

/-- A Python function handed to `expose_tools`: name, cleaned docstring,
signature, and body. -/
structure Operation where
  name : String
  doc : Option String
  params : List Param
  run : Args → ExecResult

/-- The per-tool entry appended to `tool_info`:
`{"name": ..., "description": ..., "parameters": ...}`. -/
structure ToolDescriptor where
  name : String
  description : String
  parameters : List (String × ParamInfo)
  deriving DecidableEq

/-- Builds one `tool_info` entry from a function, as in the registration
loop of `expose_tools`. -/
def toolDescriptor (f : Operation) : ToolDescriptor :=
  { name := f.name,
    description := _extract_docstring f.doc,
    parameters := _extract_param_info f.params }

/-- Python dict assignment `m[k] = v`: replace the value in place when the
key is present, otherwise append a new entry. -/
def dictInsert : List (String × Operation) → String → Operation → List (String × Operation)
  | [], k, v => [(k, v)]
  | (k', v') :: rest, k, v =>
    if k' = k then (k, v) :: rest else (k', v') :: dictInsert rest k v

/-- Dict lookup on `tool_map`. -/
def lookupD : List (String × Operation) → String → Option Operation
  | [], _ => Option.none
  | (k, v) :: rest, n => if k = n then Option.some v else lookupD rest n

/-- Accumulator of the registration loop: the `tool_map` dict and the
`tool_info` list. -/
abbrev RegAcc := List (String × Operation) × List ToolDescriptor

/-- One iteration of the registration loop in `expose_tools`:
`tool_map[name] = func` and `tool_info.append({...})`. -/
def registerStep (acc : RegAcc) (f : Operation) : RegAcc :=
  (dictInsert acc.1 f.name f, acc.2 ++ [toolDescriptor f])

/-- The FastAPI application state built by `expose_tools`: the
construction-time configuration plus the registry. -/
structure App where
  title : String
  description : String
  version : String
  tool_map : List (String × Operation)
  tool_info : List ToolDescriptor

/-- Embedding of `expose_tools`: run the registration loop over the tool
list starting from empty registries and package the application. -/
def expose_tools (tools : List Operation) (title descr version : String) : App :=
  { title := title,
    description := descr,
    version := version,
    tool_map := (tools.foldl registerStep ([], [])).1,
    tool_info := (tools.foldl registerStep ([], [])).2 }

/-- The registry lookup `tool_name in tool_map` / `tool_map[tool_name]`
used by the invoke endpoint. -/
def lookupTool (app : App) (n : String) : Option Operation :=
  lookupD app.tool_map n

/-- The most recently registered operation with a given name, if any
(specification-side description of dict last-write-wins). -/
def lastRegistered : List Operation → String → Option Operation
  | [], _ => Option.none
  | f :: rest, n =>
    match lastRegistered rest n with
    | Option.some g => Option.some g
    | Option.none => if f.name = n then Option.some f else Option.none

/-- Binding check for the call `func(**args)` on a plain signature: every
supplied keyword must name a declared parameter, and every parameter
without a default must be supplied.  Otherwise the interpreter raises
`TypeError` before the body runs. -/
def bindOk (ps : List Param) (args : Args) : Bool :=
  args.all (fun kv => ps.any (fun p => p.name == kv.1)) &&
  ps.all (fun p => p.default.isSome || (lookupArg args p.name).isSome)

/-- The environment the body receives when binding succeeds: each declared
parameter bound to the supplied argument, or to its default. -/
def bindEnv (ps : List Param) (args : Args) : Args :=
  ps.map (fun p =>
    (p.name,
      match lookupArg args p.name with
      | Option.some v => v
      | Option.none => p.default.getD PyVal.none))

/-- Models the message of the `TypeError` the interpreter raises when
binding fails (its exact wording is interpreter-generated and not part of
the shim). -/
def bindErrorMsg (name : String) (ps : List Param) (args : Args) : String :=
  name ++ "() argument mismatch: expected (" ++
    String.intercalate ", " (ps.map (fun p => p.name)) ++ "), got (" ++
    String.intercalate ", " (args.map (fun kv => kv.1)) ++ ")"

/-- Models the call `func(**params)`: bind, then run the body; a binding
failure is a raised `TypeError`. -/
def callPython (f : Operation) (args : Args) : ExecResult :=
  if bindOk f.params args then f.run (bindEnv f.params args)
  else ExecResult.exn "TypeError" (bindErrorMsg f.name f.params args)

/-- The four outcomes of the invoke endpoint: `HTTPException(404)`,
`HTTPException(422)` with the structured detail, and the two 200 envelopes
`{"success": True, "tool": ..., "result": ...}` and
`{"success": False, "tool": ..., "error": ..., "error_type": ...}`. -/
inductive InvokeResult where
  | notFound (detail : String)
  | paramError (error : String) (tool : String)
      (expected_parameters : List String) (received_parameters : List String)
  | success (tool : String) (result : PyVal)
  | failure (tool : String) (error : String) (error_type : String)
  deriving DecidableEq

/-- Models `params = body or {}`: an absent body and an empty body are both
the empty mapping (an empty dict is falsy). -/
def orEmpty (body : Option Args) : Args :=
  match body with
  | Option.none => []
  | Option.some a => if a.isEmpty then [] else a

/-- Embedding of the `invoke_tool` endpoint handler.  Unknown names give
the 404; then the body runs under `try`: a raised `TypeError` — whether
from argument binding or from inside the body — hits `except TypeError`
and becomes the 422 detail with the declared parameter names and the
received keys; any other exception hits `except Exception` and becomes the
`success: False` envelope; a normal return becomes the `success: True`
envelope carrying the raw return value. -/
def invoke_tool (app : App) (tool_name : String) (body : Option Args) : InvokeResult :=
  match lookupTool app tool_name with
  | Option.none =>
    InvokeResult.notFound
      ("Tool \x27" ++ tool_name ++ "\x27 not found. Use GET /mcp/list_tools to see available tools.")
  | Option.some func =>
    let params := orEmpty body
    match callPython func params with
    | ExecResult.ok v => InvokeResult.success tool_name v
    | ExecResult.exn kind msg =>
      if kind = "TypeError" then
        InvokeResult.paramError msg tool_name
          (func.params.map (fun p => p.name)) (params.map (fun kv => kv.1))
      else
        InvokeResult.failure tool_name msg kind

/-- The HTTP status each `InvokeResult` is delivered with. -/
def statusCode : InvokeResult → Nat
  | InvokeResult.notFound _ => 404
  | InvokeResult.paramError _ _ _ _ => 422
  | InvokeResult.success _ _ => 200
  | InvokeResult.failure _ _ _ => 200

/-- The `success` field of the 200 envelope, when the response is one. -/
def envelopeFlag : InvokeResult → Option Bool
  | InvokeResult.success _ _ => Option.some true
  | InvokeResult.failure _ _ _ => Option.some false
  | _ => Option.none

/-- Response of the `/health` endpoint. -/
structure HealthResponse where
  status : String
  server : String
  version : String
  tools : Nat
  deriving DecidableEq

/-- Embedding of the `health` endpoint handler. -/
def health (app : App) : HealthResponse :=
  { status := "ok",
    server := app.title,
    version := app.version,
    tools := app.tool_map.length }

/-- Response of the `/mcp/list_tools` endpoint. -/
structure ListToolsResponse where
  tools : List ToolDescriptor
  count : Nat
  deriving DecidableEq

/-- Embedding of the `list_tools` endpoint handler. -/
def list_tools (app : App) : ListToolsResponse :=
  { tools := app.tool_info,
    count := app.tool_info.length }

/-- An inbound request to one of the three endpoints. -/
inductive Request where
  | health
  | listTools
  | invokeReq (n : String) (b : Option Args)

/-- A response from one of the three endpoints. -/
inductive HttpResponse where
  | healthR (h : HealthResponse)
  | toolsR (t : ListToolsResponse)
  | invokeR (r : InvokeResult)

/-- Serving one request: the handlers are closures over the registry that
never assign to it, so the state is returned unchanged. -/
def handle (app : App) : Request → HttpResponse × App
  | Request.health => (HttpResponse.healthR (health app), app)
  | Request.listTools => (HttpResponse.toolsR (list_tools app), app)
  | Request.invokeReq n b => (HttpResponse.invokeR (invoke_tool app n b), app)

/-- A two-adjacent-newline paragraph break occurs somewhere in the text. -/
def HasBreak (l : List Char) : Prop :=
  ∃ a b, l = a ++ '\n' :: '\n' :: b

/-- Specification-side characterization of "the text up to the first
blank-line boundary": either the text has no paragraph break and `p` is
all of it, or `p` is the prefix preceding a break and no break occurs
earlier. -/
def IsFirstPara (d p : List Char) : Prop :=
  (¬ HasBreak d ∧ p = d) ∨
  (∃ r, d = p ++ '\n' :: '\n' :: r ∧
    ∀ a b, d = a ++ '\n' :: '\n' :: b → p.length ≤ a.length)

/-- Concrete tool: `add(a, b)` with no defaults, returning `a + b`. -/
def addOp : Operation :=
  { name := "add",
    doc := Option.some "Add two numbers.",
    params := [{ name := "a", annot := Option.some "int", default := Option.none },
               { name := "b", annot := Option.some "int", default := Option.none }],
    run := fun env =>
      match lookupArg env "a", lookupArg env "b" with
      | Option.some (PyVal.int a), Option.some (PyVal.int b) =>
        ExecResult.ok (PyVal.int (a + b))
      | _, _ => ExecResult.exn "TypeError" "unsupported operand type(s)" }

/-- Application with only `add` registered. -/
def Radd : App := expose_tools [addOp] "MCP Server" "" "1.0.0"

/-- First of two tools sharing the name `scene_info`. -/
def dupA : Operation :=
  { name := "scene_info",
    doc := Option.some "Report scene statistics.",
    params := [],
    run := fun _ => ExecResult.ok (PyVal.str "A") }

/-- Second tool named `scene_info`, registered after `dupA`. -/
def dupB : Operation :=
  { name := "scene_info",
    doc := Option.some "Return scene info, second version.",
    params := [],
    run := fun _ => ExecResult.ok (PyVal.str "B") }

/-- Application registering two tools with the same name. -/
def Rdup : App := expose_tools [dupA, dupB] "MCP Server" "" "1.0.0"

/-- Concrete tool whose body raises `TypeError` even though its (empty)
signature binds any empty argument mapping. -/
def snapOp : Operation :=
  { name := "snap",
    doc := Option.none,
    params := [],
    run := fun _ => ExecResult.exn "TypeError" "unsupported operand" }

/-- Application with only `snap` registered. -/
def Rsnap : App := expose_tools [snapOp] "MCP Server" "" "1.0.0"

/-- Concrete tool returning an opaque, non-JSON-serializable host object. -/
def objOp : Operation :=
  { name := "active_object",
    doc := Option.none,
    params := [],
    run := fun _ => ExecResult.ok (PyVal.obj "Object") }

/-- Application with only `active_object` registered. -/
def Robj : App := expose_tools [objOp] "MCP Server" "" "1.0.0"

/-- Concrete tool whose body raises an arithmetic fault. -/
def boomOp : Operation :=
  { name := "boom",
    doc := Option.none,
    params := [],
    run := fun _ => ExecResult.exn "ZeroDivisionError" "division by zero" }

/-- Application with only `boom` registered. -/
def Rboom : App := expose_tools [boomOp] "MCP Server" "" "1.0.0"

/-- A parameter with a JSON-serializable default. -/
def factorParam : Param :=
  { name := "factor", annot := Option.some "int", default := Option.some (PyVal.int 2) }

/-- A parameter whose default is an opaque host object that `json.dumps`
rejects. -/
def vecParam : Param :=
  { name := "v", annot := Option.some "Vector", default := Option.some (PyVal.obj "Vector") }

/-- Concrete tool with one defaulted parameter. -/
def scaleOp : Operation :=
  { name := "scale",
    doc := Option.none,
    params := [factorParam],
    run := fun _ => ExecResult.ok PyVal.none }

theorem registerStep_info (ts : List Operation) (acc : RegAcc) :
    (ts.foldl registerStep acc).2 = acc.2 ++ ts.map toolDescriptor := by
  induction ts generalizing acc with
  | nil => simp
  | cons f ts ih =>
    rw [List.foldl_cons, ih]
    simp [registerStep]

theorem lookupD_dictInsert (m : List (String × Operation)) (k : String)
    (v : Operation) (n : String) :
    lookupD (dictInsert m k v) n = if k = n then Option.some v else lookupD m n := by
  induction m with
  | nil => rfl
  | cons kv rest ih =>
    obtain ⟨k', v'⟩ := kv
    by_cases hkk : k' = k
    · subst hkk
      by_cases hn : k' = n <;> simp [dictInsert, lookupD, hn]
    · by_cases hn1 : k' = n
      · subst hn1
        have hkn : ¬ k = k' := fun h => hkk h.symm
        simp [dictInsert, lookupD, hkk, hkn]
      · simp [dictInsert, lookupD, hkk, hn1, ih]

theorem lookupD_register (ts : List Operation) (acc : RegAcc) (n : String) :
    lookupD (ts.foldl registerStep acc).1 n =
      (match lastRegistered ts n with
       | Option.some g => Option.some g
       | Option.none => lookupD acc.1 n) := by
  induction ts generalizing acc with
  | nil => rfl
  | cons f ts ih =>
    rw [List.foldl_cons, ih]
    cases hl : lastRegistered ts n with
    | some g => simp [lastRegistered, hl]
    | none =>
      simp only [lastRegistered, hl, registerStep, lookupD_dictInsert]
      by_cases hfn : f.name = n <;> simp [hfn]

theorem firstPara_spec (d : List Char) : IsFirstPara d (firstPara d) := by
  induction d with
  | nil =>
    left
    refine ⟨?_, rfl⟩
    rintro ⟨a, b, h⟩
    cases a <;> simp at h
  | cons c t ih =>
    cases t with
    | nil =>
      left
      refine ⟨?_, rfl⟩
      rintro ⟨a, b, h⟩
      cases a with
      | nil => simp at h
      | cons x a' => simp at h
    | cons d' t' =>
      by_cases hnl : c = '\n' ∧ d' = '\n'
      · obtain ⟨hc, hd⟩ := hnl
        subst hc; subst hd
        right
        refine ⟨t', ?_, ?_⟩
        · simp [firstPara]
        · intro a b h
          simp [firstPara]
      · have hfp : firstPara (c :: d' :: t') = c :: firstPara (d' :: t') := by
          simp [firstPara, hnl]
        rcases ih with ⟨hnb, hpd⟩ | ⟨r, hr, hmin⟩
        · left
          refine ⟨?_, ?_⟩
          · rintro ⟨a, b, h⟩
            cases a with
            | nil =>
              simp at h
              exact hnl ⟨h.1, h.2.1⟩
            | cons x a' =>
              simp at h
              exact hnb ⟨a', b, h.2⟩
          · rw [hfp, hpd]
        · right
          refine ⟨r, ?_, ?_⟩
          · rw [hfp, List.cons_append, ← hr]
          · intro a b h
            cases a with
            | nil =>
              exfalso
              simp at h
              exact hnl ⟨h.1, h.2.1⟩
            | cons x a' =>
              simp at h
              have hm := hmin a' b h.2
              rw [hfp]
              simp only [List.length_cons]
              omega

/-- Claim C8: the published description is the operation's docstring cut at
the first blank-line boundary (two adjacent newlines) and trimmed of
surrounding whitespace, and is the empty string when the operation has no
documentation.  `firstPara` is the prefix the source computes as
`doc.split("\x5cn\x5cn")[0]`, and `IsFirstPara` certifies it really is the
text up to the first such boundary. -/
theorem c8_description_first_paragraph :
    (∀ f : Operation, (toolDescriptor f).description = _extract_docstring f.doc) ∧
    _extract_docstring Option.none = "" ∧
    (∀ d : String,
      _extract_docstring (Option.some d) = String.mk (listTrim (firstPara d.data)) ∧
      IsFirstPara d.data (firstPara d.data)) := by
  refine ⟨fun f => rfl, rfl, fun d => ⟨?_, firstPara_spec d.data⟩⟩
  by_cases hd : d = ""
  · subst hd
    rfl
  · simp [_extract_docstring, hd]

/-- Claim C1 counterexample: registering `dupA` then `dupB`, which share
the name `scene_info`, publishes TWO descriptors for that name — the
`tool_info` list gets one appended entry per registered function and is
never deduplicated — contradicting "exactly one descriptor per unique
final name". -/
theorem c1_counterexample_duplicate_descriptors :
    ((list_tools Rdup).tools.filter (fun t => t.name == "scene_info")).length = 2 ∧
    ¬ ((list_tools Rdup).tools.filter (fun t => t.name == "scene_info")).length = 1 := by
  constructor <;> decide

/-- Claim C1 (amended): `list_tools` publishes one descriptor per
registered operation, in registration order — so two operations sharing a
name yield one descriptor per registration, not a single merged one —
while the registry lookup used by `invoke` resolves a name to the most
recently registered operation bearing it (dict last-write-wins), so the
earlier registration is unreachable via `invoke`. -/
theorem c1_amended_descriptor_per_registration :
    ∀ (ts : List Operation) (t de ver n : String),
      (list_tools (expose_tools ts t de ver)).tools = ts.map toolDescriptor ∧
      lookupTool (expose_tools ts t de ver) n = lastRegistered ts n := by
  intro ts t de ver n
  constructor
  · simp [list_tools, expose_tools, registerStep_info]
  · simp only [lookupTool, expose_tools]
    rw [lookupD_register]
    cases lastRegistered ts n <;> rfl

/-- Claim C2 counterexample: the tool `snap` has an empty signature, so the
empty argument mapping binds successfully, and its body then raises a
`TypeError`; `invoke` answers with the 422 parameter error, not with the
`success: false` envelope the claim promises for every post-dispatch
failure. -/
theorem c2_counterexample_body_type_error :
    bindOk snapOp.params (orEmpty Option.none) = true ∧
    snapOp.run (bindEnv snapOp.params (orEmpty Option.none)) =
      ExecResult.exn "TypeError" "unsupported operand" ∧
    invoke_tool Rsnap "snap" Option.none =
      InvokeResult.paramError "unsupported operand" "snap" [] [] ∧
    statusCode (invoke_tool Rsnap "snap" Option.none) = 422 ∧
    invoke_tool Rsnap "snap" Option.none ≠
      InvokeResult.failure "snap" "unsupported operand" "TypeError" := by
  refine ⟨rfl, rfl, rfl, rfl, by decide⟩

/-- Claim C2 (amended): for every registered tool whose arguments bind
successfully, a failure raised during the operation's own execution whose
kind is not `TypeError` is returned as the 200 envelope
`{success: false, tool, error, error_type}` — never a 422 and never an
unhandled fault.  (A `TypeError` raised by the body itself is caught by
the same handler as binding mismatches and surfaces as a 422 instead.) -/
theorem c2_amended_runtime_envelope :
    ∀ (app : App) (n : String) (f : Operation) (body : Option Args) (kind msg : String),
      lookupTool app n = Option.some f →
      bindOk f.params (orEmpty body) = true →
      f.run (bindEnv f.params (orEmpty body)) = ExecResult.exn kind msg →
      kind ≠ "TypeError" →
      invoke_tool app n body = InvokeResult.failure n msg kind ∧
      statusCode (invoke_tool app n body) = 200 ∧
      envelopeFlag (invoke_tool app n body) = Option.some false := by
  intro app n f body kind msg h1 h2 h3 h4
  have hinv : invoke_tool app n body = InvokeResult.failure n msg kind := by
    simp [invoke_tool, h1, callPython, h2, h3, h4]
  exact ⟨hinv, by simp [hinv, statusCode], by simp [hinv, envelopeFlag]⟩

/-- Witness for C2 (amended): a division-by-zero failure inside the tool
body is delivered as the success-false envelope with status 200. -/
theorem c2_amended_runtime_envelope_witness :
    invoke_tool Rboom "boom" Option.none =
      InvokeResult.failure "boom" "division by zero" "ZeroDivisionError" ∧
    statusCode (invoke_tool Rboom "boom" Option.none) = 200 ∧
    envelopeFlag (invoke_tool Rboom "boom" Option.none) = Option.some false :=
  c2_amended_runtime_envelope Rboom "boom" boomOp Option.none
    "ZeroDivisionError" "division by zero" rfl rfl rfl (by decide)

/-- Claim C3 counterexample: the tool `active_object` returns an opaque
non-JSON-serializable host object, and `invoke` answers with the
`success: true` envelope carrying the raw value — the dispatcher performs
no serializability check, so no `success: false` envelope is produced. -/
theorem c3_counterexample_raw_result :
    jsonSerializable (PyVal.obj "Object") = false ∧
    invoke_tool Robj "active_object" Option.none =
      InvokeResult.success "active_object" (PyVal.obj "Object") ∧
    envelopeFlag (invoke_tool Robj "active_object" Option.none) = Option.some true := by
  exact ⟨rfl, rfl, rfl⟩

/-- Claim C3 (amended): the dispatcher returns the Success envelope with
the operation's raw return value even when that value is not
JSON-serializable (serialization is deferred to the framework's response
encoding, outside the dispatcher), and every code path of `invoke` returns
one of the four response variants. -/
theorem c3_amended_success_not_checked :
    (∀ (app : App) (n : String) (f : Operation) (body : Option Args) (v : PyVal),
      lookupTool app n = Option.some f →
      bindOk f.params (orEmpty body) = true →
      f.run (bindEnv f.params (orEmpty body)) = ExecResult.ok v →
      jsonSerializable v = false →
      invoke_tool app n body = InvokeResult.success n v) ∧
    (∀ (app : App) (n : String) (body : Option Args),
      (∃ d, invoke_tool app n body = InvokeResult.notFound d) ∨
      (∃ e t ex rc, invoke_tool app n body = InvokeResult.paramError e t ex rc) ∨
      (∃ t v, invoke_tool app n body = InvokeResult.success t v) ∨
      (∃ t e k, invoke_tool app n body = InvokeResult.failure t e k)) := by
  constructor
  · intro app n f body v h1 h2 h3 _
    simp [invoke_tool, h1, callPython, h2, h3]
  · intro app n body
    cases h : invoke_tool app n body with
    | notFound d => exact Or.inl ⟨d, rfl⟩
    | paramError e t ex rc => exact Or.inr (Or.inl ⟨e, t, ex, rc, rfl⟩)
    | success t v => exact Or.inr (Or.inr (Or.inl ⟨t, v, rfl⟩))
    | failure t e k => exact Or.inr (Or.inr (Or.inr ⟨t, e, k, rfl⟩))

/-- Witness for C3 (amended): the non-serializable result flows through as
a raw Success payload. -/
theorem c3_amended_success_not_checked_witness :
    invoke_tool Robj "active_object" (Option.some []) =
      InvokeResult.success "active_object" (PyVal.obj "Object") :=
  c3_amended_success_not_checked.1 Robj "active_object" objOp (Option.some [])
    (PyVal.obj "Object") rfl rfl rfl rfl

/-- Claim C4: when argument binding fails on a registered tool, `invoke`
returns the 422 parameter error whose payload carries a human-readable
message, the full ordered list of the operation's declared parameter
names, and the argument keys actually received. -/
theorem c4_parameter_error :
    ∀ (app : App) (n : String) (f : Operation) (body : Option Args),
      lookupTool app n = Option.some f →
      bindOk f.params (orEmpty body) = false →
      invoke_tool app n body =
        InvokeResult.paramError (bindErrorMsg f.name f.params (orEmpty body)) n
          (f.params.map (fun p => p.name)) ((orEmpty body).map (fun kv => kv.1)) ∧
      statusCode (invoke_tool app n body) = 422 := by
  intro app n f body h1 h2
  have hinv : invoke_tool app n body =
      InvokeResult.paramError (bindErrorMsg f.name f.params (orEmpty body)) n
        (f.params.map (fun p => p.name)) ((orEmpty body).map (fun kv => kv.1)) := by
    simp [invoke_tool, h1, callPython, h2]
  exact ⟨hinv, by simp [hinv, statusCode]⟩

/-- Witness for C4: `add(a, b)` invoked with only `{a: 2}` yields the 422
payload with expected parameters `[a, b]` and received parameters `[a]`. -/
theorem c4_parameter_error_witness :
    invoke_tool Radd "add" (Option.some [("a", PyVal.int 2)]) =
      InvokeResult.paramError (bindErrorMsg "add" addOp.params [("a", PyVal.int 2)])
        "add" ["a", "b"] ["a"] ∧
    statusCode (invoke_tool Radd "add" (Option.some [("a", PyVal.int 2)])) = 422 :=
  c4_parameter_error Radd "add" addOp (Option.some [("a", PyVal.int 2)]) rfl rfl

/-- Claim C5: an unknown tool name always yields the 404 response with
exactly the documented detail string, on any argument body. -/
theorem c5_not_found :
    ∀ (app : App) (n : String) (body : Option Args),
      lookupTool app n = Option.none →
      invoke_tool app n body =
        InvokeResult.notFound
          ("Tool \x27" ++ n ++ "\x27 not found. Use GET /mcp/list_tools to see available tools.") ∧
      statusCode (invoke_tool app n body) = 404 := by
  intro app n body h
  have hinv : invoke_tool app n body =
      InvokeResult.notFound
        ("Tool \x27" ++ n ++ "\x27 not found. Use GET /mcp/list_tools to see available tools.") := by
    simp [invoke_tool, h]
  exact ⟨hinv, by simp [hinv, statusCode]⟩

/-- Witness for C5: invoking the unregistered name `nonexistent` with an
empty body yields the 404 with the exact detail text. -/
theorem c5_not_found_witness :
    invoke_tool Radd "nonexistent" (Option.some []) =
      InvokeResult.notFound
        "Tool \x27nonexistent\x27 not found. Use GET /mcp/list_tools to see available tools." ∧
    statusCode (invoke_tool Radd "nonexistent" (Option.some [])) = 404 :=
  c5_not_found Radd "nonexistent" (Option.some []) rfl

/-- Claim C6: when the arguments bind and the operation returns a value,
`invoke` answers `{success: true, tool, result}` with status 200; and an
absent body is treated exactly as the empty mapping. -/
theorem c6_success_envelope :
    (∀ (app : App) (n : String) (f : Operation) (body : Option Args) (v : PyVal),
      lookupTool app n = Option.some f →
      bindOk f.params (orEmpty body) = true →
      f.run (bindEnv f.params (orEmpty body)) = ExecResult.ok v →
      invoke_tool app n body = InvokeResult.success n v ∧
      statusCode (invoke_tool app n body) = 200 ∧
      envelopeFlag (invoke_tool app n body) = Option.some true) ∧
    (∀ (app : App) (n : String),
      invoke_tool app n Option.none = invoke_tool app n (Option.some [])) := by
  constructor
  · intro app n f body v h1 h2 h3
    have hinv : invoke_tool app n body = InvokeResult.success n v := by
      simp [invoke_tool, h1, callPython, h2, h3]
    exact ⟨hinv, by simp [hinv, statusCode], by simp [hinv, envelopeFlag]⟩
  · intro app n
    rfl

/-- Witness for C6: `add` invoked with `{a: 2, b: 3}` yields Success with
result 5. -/
theorem c6_success_envelope_witness :
    invoke_tool Radd "add" (Option.some [("a", PyVal.int 2), ("b", PyVal.int 3)]) =
      InvokeResult.success "add" (PyVal.int 5) ∧
    statusCode (invoke_tool Radd "add"
      (Option.some [("a", PyVal.int 2), ("b", PyVal.int 3)])) = 200 ∧
    envelopeFlag (invoke_tool Radd "add"
      (Option.some [("a", PyVal.int 2), ("b", PyVal.int 3)])) = Option.some true :=
  c6_success_envelope.1 Radd "add" addOp
    (Option.some [("a", PyVal.int 2), ("b", PyVal.int 3)]) (PyVal.int 5) rfl rfl rfl

/-- Claim C7: a declared default is stored verbatim in the descriptor when
it is JSON-serializable, and as its string rendering otherwise; the
extraction is a total function, so introspection never fails on such a
parameter. -/
theorem c7_default_serialization :
    ∀ (p : Param) (v : PyVal),
      p.default = Option.some v →
      (jsonSerializable v = true → (paramInfoOf p).default = Option.some v) ∧
      (jsonSerializable v = false →
        (paramInfoOf p).default = Option.some (PyVal.str (strRender v))) := by
  intro p v h
  constructor <;> intro hs <;> simp [paramInfoOf, h, hs]

/-- Witness for C7: a default that `json.dumps` rejects is stored as its
string rendering. -/
theorem c7_default_serialization_witness :
    (paramInfoOf vecParam).default = Option.some (PyVal.str "<Vector object>") :=
  (c7_default_serialization vecParam (PyVal.obj "Vector") rfl).2 rfl

/-- Claim C9: serving any sequence of requests leaves the registry
unchanged, so `list_tools` called before and after any interleaving of
endpoint calls returns identical results — it is a pure, always-succeeding
read. -/
theorem c9_list_tools_pure :
    ∀ (app : App) (reqs : List Request),
      reqs.foldl (fun s r => (handle s r).2) app = app ∧
      (handle (reqs.foldl (fun s r => (handle s r).2) app) Request.listTools).1 =
        (handle app Request.listTools).1 ∧
      (∀ r : Request, (handle app r).2 = app) := by
  intro app reqs
  have hstep : ∀ (s : App) (r : Request), (handle s r).2 = s := by
    intro s r
    cases r <;> rfl
  have hfold : reqs.foldl (fun s r => (handle s r).2) app = app := by
    induction reqs with
    | nil => rfl
    | cons r rs ih =>
      rw [List.foldl_cons, hstep, ih]
  exact ⟨hfold, by rw [hfold], hstep app⟩

/-- Claim C10: every parameter entry of a published descriptor carries the
`required` flag, and carries a `default` field exactly when `required` is
false — i.e. exactly when the operation declares a default for it. -/
theorem c10_default_iff_optional :
    ∀ (f : Operation) (pn : String) (info : ParamInfo),
      (pn, info) ∈ (toolDescriptor f).parameters →
      (info.default.isSome ↔ info.required = false) ∧
      ∃ p : Param, p ∈ f.params ∧ p.name = pn ∧ info.required = p.default.isNone := by
  intro f pn info hmem
  simp only [toolDescriptor, _extract_param_info, List.mem_map] at hmem
  obtain ⟨p, hp, heq⟩ := hmem
  cases heq
  constructor
  · cases hd : p.default <;> simp [paramInfoOf, hd]
  · exact ⟨p, hp, rfl, rfl⟩

/-- Witness for C10: the defaulted parameter `factor` of the tool `scale`
has `required = false` and a present `default` field. -/
theorem c10_default_iff_optional_witness :
    (paramInfoOf factorParam).default.isSome ↔ (paramInfoOf factorParam).required = false :=
  (c10_default_iff_optional scaleOp "factor" (paramInfoOf factorParam) (by decide)).1
